import Mathlib

/-!
Verification of the `SCClient` state-channel client (`src/index.js`) of the
scnode repository.

The client is a thin orchestration layer over external collaborators
(database helper, blockchain proxy, message generator, proof generator,
random utility).  Those collaborators live outside `src/`, so they are
embedded as opaque oracle functions gathered in an `Env` record; pieces
whose behaviour the specification pins down (the status constants, the
win-amount game rule) are modelled from the specification text and marked
as such in their doc comments.

Each public operation of `SCClient` is embedded as a pure function from an
`Env` and its arguments to a pair of a result (`ApiOutcome`, the value the
returned promise resolves to, or the error it rejects with) and a trace of
observable actions (`Action`): store reads and writes, socket emissions
and blockchain calls, in the order the JavaScript code performs them.
-/

namespace SCNode

/-- Modelled from the spec: the channel status enumeration
{Opened, Closed, UpdateBalanceProof, Settled} of section 3.1.  The file
`src/Constants.js` defining the numeric values is not part of `src/`;
only the distinctness of the four states matters below. -/
def CHANNEL_OPENED : Nat := 1

/-- Channel status Closed (see `CHANNEL_OPENED`). -/
def CHANNEL_CLOSED : Nat := 2

/-- Channel status UpdateBalanceProof (see `CHANNEL_OPENED`). -/
def CHANNEL_UPDATEBALANCEPROOF : Nat := 3

/-- Channel status Settled (see `CHANNEL_OPENED`). -/
def CHANNEL_SETTLED : Nat := 4

/-- Modelled from the spec: the bet status enumeration of section 3.1 in
lifecycle order Init < Start < LockedTransferSent < LockedTransferRSent <
BetResponseReceived < PreimageSent < DirectTransferSent < Finish
(section 3.3).  `src/Constants.js` is not part of `src/`; the code
compares bet statuses with `<` and `==`, so the numeric order encodes the
lifecycle order. -/
def BET_INIT : Nat := 1

/-- Bet status Start (see `BET_INIT`). -/
def BET_START : Nat := 2

/-- Bet status LockedTransferSent (see `BET_INIT`). -/
def BET_LOCKEDTRANSFERSENT : Nat := 3

/-- Bet status LockedTransferRSent (see `BET_INIT`). -/
def BET_LOCKEDTRANSFERRSENT : Nat := 4

/-- Bet status BetResponseReceived (see `BET_INIT`). -/
def BET_BETRESPONSERECEIVED : Nat := 5

/-- Bet status PreimageSent (see `BET_INIT`). -/
def BET_PREIMAGESENT : Nat := 6

/-- Bet status DirectTransferSent (see `BET_INIT`). -/
def BET_DIRECTTRANSFERSENT : Nat := 7

/-- Bet status Finish (see `BET_INIT`). -/
def BET_FINISH : Nat := 8

/-- Number of set bits of `n`, computed with explicit fuel (`n` halving
steps always suffice) so that the definition reduces definitionally. -/
def popcountAux : Nat → Nat → Nat
  | 0, _ => 0
  | fuel + 1, n => if n = 0 then 0 else n % 2 + popcountAux fuel (n / 2)

/-- Number of set bits of a natural number (the bet mask). -/
def popcount (n : Nat) : Nat := popcountAux n n

/-- Modelled from the spec: `GameRule.getPossibleWinAmount` is in
`src/gameRule.js`, outside `src/`.  Section 4.5 of the specification:
`win_amount = value × popcount(bet_mask)^(-1) × modulo` using integer
arithmetic. -/
def getPossibleWinAmount (betMask modulo : Nat) (value : Int) : Int :=
  value * (modulo : Int) / (popcount betMask : Int)

/-- A stored channel record, with the fields of section 3.1 that
`src/index.js` reads.  `currentRound` is `none` when the JavaScript field
is `null` (no bet initiated yet, which section 3.1 identifies with
round 0). -/
structure Channel where
  status : Nat
  localBalance : Int
  remoteBalance : Int
  currentRound : Option Nat
  localCloseBalanceHash : Nat
  remoteCloseBalanceHash : Nat
  deriving DecidableEq

/-- A stored bet record, with the fields `startBet` persists and
`initiatorSettle` reads. -/
structure Bet where
  gameContractAddress : Nat
  channelId : Nat
  round : Nat
  betMask : Nat
  modulo : Nat
  value : Int
  winAmount : Int
  positiveA : Nat
  hashRa : Nat
  ra : Nat
  signatureA : Nat
  negativeB : Nat
  status : Nat
  deriving DecidableEq

/-- The `BetRequest` message produced by
`messageGenerator.generateBetRequest` plus the `value` field `startBet`
adds afterwards.  Field list modelled from the spec, section 4.2
(`src/utils/messageGenerator.js` is outside `src/`). -/
structure BetRequestMessage where
  channelIdentifier : Nat
  round : Nat
  gameContractAddress : Nat
  betMask : Nat
  modulo : Nat
  positiveA : Nat
  negativeB : Nat
  hashRa : Nat
  signatureA : Nat
  value : Int
  deriving DecidableEq

/-- Output of `proofGenerator.getCloseData`: the close proof
`(balance_hash, nonce, signature)` of spec section 4.4. -/
structure CloseData where
  balanceHash : Nat
  nonce : Nat
  signature : Nat
  deriving DecidableEq

/-- Output of `proofGenerator.getSettleData`: the settle tuple of spec
section 4.4. -/
structure SettleData where
  participant1 : Nat
  participant1TransferredAmount : Nat
  participant1LockedAmount : Nat
  participant1LockId : Nat
  participant2 : Nat
  participant2TransferredAmount : Nat
  participant2LockedAmount : Nat
  participant2LockId : Nat
  deriving DecidableEq

/-- Output of `proofGenerator.getInitiatorSettleData`: the eleven
arguments of the on-chain initiator-settle call, spec section 4.4. -/
structure InitiatorSettleData where
  channelIdentifier : Nat
  round : Nat
  betMask : Nat
  modulo : Nat
  positive : Nat
  negative : Nat
  initiatorHashR : Nat
  initiatorSignature : Nat
  acceptorR : Nat
  acceptorSignature : Nat
  initiatorR : Nat
  deriving DecidableEq

/-- The database helper (`dbhelper`), abstracted to its read functions:
`getChannel`, `getBetByChannel` (keyed by channel id and the possibly
null round) and `getBet` (keyed by bet id).  Writes are recorded on the
action trace. -/
structure Store where
  channels : Nat → Option Channel
  betsByChannelRound : Nat → Option Nat → Option Bet
  betsById : Nat → Option Bet

/-- The environment of a `SCClient` instance: its store and the opaque
out-of-`src/` collaborators (blockchain proxy, message generator, proof
generator, random utility) as oracle functions. -/
structure Env where
  store : Store
  fromAddr : Nat
  chainChannelId : Nat → Nat
  randomFromSeed : String → Nat
  keccak : Nat → Nat
  genBetRequestSig : Nat → Nat → Nat → Nat → Nat → Nat → Nat → Nat
  getCloseData : Channel → CloseData
  getSettleData : Channel → Nat → Nat → SettleData
  getInitiatorSettleData : Channel → Bet → InitiatorSettleData
  closeTx : Nat → Nat → Nat → Nat → Nat
  settleTx : SettleData → Nat
  unlockTx : Nat → Nat → Nat → Nat
  initiatorSettleTx : InitiatorSettleData → Nat

/-- The error kinds of spec section 7, used to state what a tagged
rejection would look like. -/
inductive ErrKind where
  | invalidSignature
  | staleNonce
  | balanceConservationViolation
  | wrongChannelState
  | unknownChannel
  | unknownBet
  | chainRejected
  | timeout
  | fatalReorg
  deriving DecidableEq

/-- An untyped JavaScript runtime error. -/
inductive JsError where
  | typeError
  deriving DecidableEq

/-- The value an operation's promise resolves to, or the rejection it
surfaces. -/
inductive ApiOutcome where
  | retTrue
  | retFalse
  | retUndefined
  | retTx (hash : Nat)
  | retEmptyObject
  | taggedError (kind : ErrKind)
  | untypedThrow (e : JsError)
  deriving DecidableEq

/-- One observable action of an operation, in program order: store reads
and writes, socket emissions, blockchain-proxy calls. -/
inductive Action where
  | readChannel (channelId : Nat)
  | readBetByChannel (channelId : Nat) (round : Option Nat)
  | readBetById (betId : Nat)
  | putBet (b : Bet)
  | updateChannelRound (channelId : Nat) (round : Nat)
  | emitBetRequest (m : BetRequestMessage)
  | chainGetChannelIdentifier (partner : Nat)
  | chainCloseChannel (partner balanceHash nonce signature : Nat)
  | chainSettle (d : SettleData)
  | chainUnlock (sender partner lockId : Nat)
  | chainInitiatorSettle (d : InitiatorSettleData)
  deriving DecidableEq

/-- Whether an action writes to the persistent store. -/
def Action.isPersist : Action → Bool
  | .putBet _ => true
  | .updateChannelRound _ _ => true
  | _ => false

/-- Whether an action emits a message over the socket transport. -/
def Action.isEmit : Action → Bool
  | .emitBetRequest _ => true
  | _ => false

/-- Whether an action calls the blockchain proxy at all (read query or
transaction submission). -/
def Action.isChainCall : Action → Bool
  | .chainGetChannelIdentifier _ => true
  | .chainCloseChannel _ _ _ _ => true
  | .chainSettle _ => true
  | .chainUnlock _ _ _ => true
  | .chainInitiatorSettle _ => true
  | _ => false

/-- Whether an action submits an on-chain transaction (excludes the
read-only `getChannelIdentifier` query). -/
def Action.isChainSubmit : Action → Bool
  | .chainCloseChannel _ _ _ _ => true
  | .chainSettle _ => true
  | .chainUnlock _ _ _ => true
  | .chainInitiatorSettle _ => true
  | _ => false

/-- Whether an action is a `current_round` update of a channel record. -/
def Action.isRoundUpdate : Action → Bool
  | .updateChannelRound _ _ => true
  | _ => false

/-- Whether an action reads the persistent store. -/
def Action.isStoreRead : Action → Bool
  | .readChannel _ => true
  | .readBetByChannel _ _ => true
  | .readBetById _ => true
  | _ => false

/-- The fixed payment contract address of src/index.js line 20, as a
natural number. -/
def paymentContractAddress : Nat := 0x86364E2a57C4040d94Ab1440E48693c6e7483c30

/-- The fixed game contract address of src/index.js line 22, as a natural
number. -/
def gameContractAddress : Nat := 0x406a9aCC62d488f7396e24750767aa8E665252C2

/-- The JavaScript test `lastBet != null && lastBet.status !=
Constants.BET_FINISH` of src/index.js line 150. -/
def unfinishedBet : Option Bet → Bool
  | some lb => lb.status != BET_FINISH
  | none => false

/-- `messageGenerator.generateBetRequest` as called by `startBet`
(src/index.js line 162), followed by the `message.value = betValue`
assignment of line 163: the `BetRequest` record over the spec section
4.2 fields, signed through the environment's signing oracle
(`src/utils/messageGenerator.js` is outside `src/`). -/
def generateBetRequest (env : Env) (channelIdentifier round betMask modulo
    positiveA negativeB hashRa : Nat) (betValue : Int) : BetRequestMessage where
  channelIdentifier := channelIdentifier
  round := round
  gameContractAddress := gameContractAddress
  betMask := betMask
  modulo := modulo
  positiveA := positiveA
  negativeB := negativeB
  hashRa := hashRa
  signatureA := env.genBetRequestSig channelIdentifier round betMask modulo
    positiveA negativeB hashRa
  value := betValue

/-- The bet record `startBet` passes to `dbhelper.addBet`
(src/index.js lines 178-192), built from the generated `BetRequest`
message, the random `ra`, the computed win amount and status Init. -/
def startBetRecord (msg : BetRequestMessage) (ra : Nat) (winAmount : Int) : Bet where
  gameContractAddress := msg.gameContractAddress
  channelId := msg.channelIdentifier
  round := msg.round
  betMask := msg.betMask
  modulo := msg.modulo
  value := msg.value
  winAmount := winAmount
  positiveA := msg.positiveA
  hashRa := msg.hashRa
  ra := ra
  signatureA := msg.signatureA
  negativeB := msg.negativeB
  status := BET_INIT

namespace SCClient

/-- `SCClient.startBet` (src/index.js lines 137-199): looks the channel
up, rejects with `undefined` when the channel is missing or not Opened,
rejects with `false` when the current-round bet is unfinished, builds the
random, its hash and the `BetRequest` message, rejects with `false` when
either balance is insufficient, otherwise persists the bet, advances the
round and emits the message, returning `true`. -/
def startBet (env : Env) (channelIdentifier partnerAddress betMask modulo : Nat)
    (betValue : Int) (randomSeed : String) : ApiOutcome × List Action :=
  let tr0 : List Action := [.readChannel channelIdentifier]
  match env.store.channels channelIdentifier with
  | none => (.retUndefined, tr0)
  | some channel =>
    if channel.status ≠ CHANNEL_OPENED then (.retUndefined, tr0)
    else
      let tr1 := tr0 ++ [.readBetByChannel channelIdentifier channel.currentRound]
      let lastBet := env.store.betsByChannelRound channelIdentifier channel.currentRound
      if unfinishedBet lastBet then
        (.retFalse, tr1)
      else
        let round := match channel.currentRound with
          | none => 1
          | some r => r + 1
        let ra := env.randomFromSeed randomSeed
        let hashRa := env.keccak ra
        let msg := generateBetRequest env channelIdentifier round betMask modulo
          env.fromAddr partnerAddress hashRa betValue
        let winAmount := getPossibleWinAmount betMask modulo betValue
        if channel.remoteBalance - winAmount < 0 ∨ channel.localBalance - betValue < 0 then
          (.retFalse, tr1)
        else
          (.retTrue,
            tr1 ++ [.putBet (startBetRecord msg ra winAmount),
              .updateChannelRound channelIdentifier round,
              .emitBetRequest msg])

/-- `SCClient.closeChannel` (src/index.js lines 206-223): resolves the
channel identifier on chain, loads the channel and immediately reads
`channel.status`; a missing channel therefore raises an untyped
JavaScript `TypeError` (property access on `null`/`undefined`).  A
channel that is not Opened yields `false`; otherwise the close proof is
built and the close transaction submitted. -/
def closeChannel (env : Env) (partnerAddress : Nat) : ApiOutcome × List Action :=
  let cid := env.chainChannelId partnerAddress
  let tr0 : List Action := [.chainGetChannelIdentifier partnerAddress, .readChannel cid]
  match env.store.channels cid with
  | none => (.untypedThrow .typeError, tr0)
  | some channel =>
    if channel.status ≠ CHANNEL_OPENED then (.retFalse, tr0)
    else
      let cd := env.getCloseData channel
      (.retTx (env.closeTx partnerAddress cd.balanceHash cd.nonce cd.signature),
        tr0 ++ [.chainCloseChannel partnerAddress cd.balanceHash cd.nonce cd.signature])

/-- `SCClient.settleChannel` (src/index.js lines 255-268): resolves the
channel identifier on chain, loads the channel, returns `false` unless
the channel exists with status Closed or UpdateBalanceProof, otherwise
builds the settle proof from the stored close balance hashes and submits
the settle transaction. -/
def settleChannel (env : Env) (partnerAddress : Nat) : ApiOutcome × List Action :=
  let cid := env.chainChannelId partnerAddress
  let tr0 : List Action := [.chainGetChannelIdentifier partnerAddress, .readChannel cid]
  match env.store.channels cid with
  | none => (.retFalse, tr0)
  | some channel =>
    if channel.status ≠ CHANNEL_CLOSED ∧ channel.status ≠ CHANNEL_UPDATEBALANCEPROOF then
      (.retFalse, tr0)
    else
      let sd := env.getSettleData channel channel.localCloseBalanceHash
        channel.remoteCloseBalanceHash
      (.retTx (env.settleTx sd), tr0 ++ [.chainSettle sd])

/-- `SCClient.unlockChannel` (src/index.js lines 277-279): calls
`blockchainProxy.unlock` unconditionally, with no store access and no
guard.  The body `await`s the call but has no `return` statement, so the
promise resolves to `undefined`. -/
def unlockChannel (env : Env) (partnerAddress lockIdentifier : Nat) :
    ApiOutcome × List Action :=
  (.retUndefined, [.chainUnlock env.fromAddr partnerAddress lockIdentifier])

/-- `SCClient.initiatorSettle` (src/index.js lines 287-303): loads the
channel and the bet, returns `false` unless the channel exists with
status Closed or UpdateBalanceProof, returns `false` unless the bet
exists with `BET_START ≤ status` and `status ≠ BET_FINISH`, otherwise
builds the initiator-settle proof and submits it on chain. -/
def initiatorSettle (env : Env) (channelIdentifier betId : Nat) :
    ApiOutcome × List Action :=
  let tr0 : List Action := [.readChannel channelIdentifier, .readBetById betId]
  match env.store.channels channelIdentifier with
  | none => (.retFalse, tr0)
  | some channel =>
    if channel.status ≠ CHANNEL_CLOSED ∧ channel.status ≠ CHANNEL_UPDATEBALANCEPROOF then
      (.retFalse, tr0)
    else
      match env.store.betsById betId with
      | none => (.retFalse, tr0)
      | some bet =>
        if bet.status < BET_START ∨ bet.status = BET_FINISH then (.retFalse, tr0)
        else
          let d := env.getInitiatorSettleData channel bet
          (.retTx (env.initiatorSettleTx d), tr0 ++ [.chainInitiatorSettle d])

/-- `SCClient.getChannel` (src/index.js lines 319-321): returns a fresh
empty object literal regardless of the partner address and of the store
contents. -/
def getChannel (_env : Env) (_partnerAddress : Nat) : ApiOutcome × List Action :=
  (.retEmptyObject, [])

/-- `SCClient.on` (src/index.js lines 349-356): `this.eventList[event] =
callback` — plain JavaScript object-property assignment, overwriting any
previously registered callback for the same event name.  The event list
is modelled as a map from event name to the registered callback
identifier.  (Named `onEvent` here because `on` is a notation token in
Lean.) -/
def onEvent (eventList : String → Option Nat) (event : String) (callback : Nat) :
    String → Option Nat :=
  fun e => if e = event then some callback else eventList e

end SCClient

/-- Folds a sequence of `on` registrations (event name, callback) over an
initial event list, in call order. -/
def applyRegs (eventList : String → Option Nat) :
    List (String × Nat) → String → Option Nat
  | [] => eventList
  | r :: rs => applyRegs (SCClient.onEvent eventList r.1 r.2) rs

/-- The callback of the latest registration for `event` in a sequence of
registrations, if any: a later registration takes precedence over an
earlier one (the spec's last-writer-wins reading). -/
def lastRegistered : List (String × Nat) → String → Option Nat
  | [], _ => none
  | r :: rs, e =>
    match lastRegistered rs e with
    | some c => some c
    | none => if r.1 = e then some r.2 else none

/-- A store with no channel and no bet records. -/
def emptyStore : Store where
  channels := fun _ => none
  betsByChannelRound := fun _ _ => none
  betsById := fun _ => none

/-- A concrete environment over the empty store, with simple distinct
oracle outputs, used to evaluate the operations on concrete inputs. -/
def envEmpty : Env where
  store := emptyStore
  fromAddr := 10
  chainChannelId := fun _ => 9
  randomFromSeed := fun _ => 5
  keccak := fun n => n + 1
  genBetRequestSig := fun _ _ _ _ _ _ _ => 21
  getCloseData := fun _ => ⟨31, 32, 33⟩
  getSettleData := fun _ _ _ => ⟨41, 42, 43, 44, 45, 46, 47, 48⟩
  getInitiatorSettleData := fun _ _ => ⟨51, 52, 53, 54, 55, 56, 57, 58, 59, 60, 61⟩
  closeTx := fun _ _ _ _ => 77
  settleTx := fun _ => 88
  unlockTx := fun _ _ _ => 99
  initiatorSettleTx := fun _ => 66

/-- A concrete Opened channel with ample balances, mid-round at round 3. -/
def chOpened : Channel where
  status := CHANNEL_OPENED
  localBalance := 1000
  remoteBalance := 1000
  currentRound := some 3
  localCloseBalanceHash := 0
  remoteCloseBalanceHash := 0

/-- A concrete Closed channel at round 1. -/
def chClosed : Channel where
  status := CHANNEL_CLOSED
  localBalance := 500
  remoteBalance := 500
  currentRound := some 1
  localCloseBalanceHash := 11
  remoteCloseBalanceHash := 12

/-- A concrete Opened channel whose local balance cannot cover a stake
of 100. -/
def chPoor : Channel where
  status := CHANNEL_OPENED
  localBalance := 50
  remoteBalance := 1000
  currentRound := some 2
  localCloseBalanceHash := 0
  remoteCloseBalanceHash := 0

/-- A concrete bet record for channel 1, round 1, in status Init. -/
def betInit1 : Bet where
  gameContractAddress := gameContractAddress
  channelId := 1
  round := 1
  betMask := 1
  modulo := 6
  value := 100
  winAmount := 600
  positiveA := 10
  hashRa := 6
  ra := 5
  signatureA := 21
  negativeB := 11
  status := BET_INIT

/-- `betInit1` advanced to status Finish. -/
def betFinished : Bet := { betInit1 with status := BET_FINISH }

/-- `betInit1` advanced to status Start. -/
def betStarted : Bet := { betInit1 with status := BET_START }

/-- Environment whose store holds the Opened channel `chOpened` under
channel id 1 and nothing else. -/
def envOpen : Env :=
  { envEmpty with
    store :=
      { channels := fun c => if c = 1 then some chOpened else none
        betsByChannelRound := fun _ _ => none
        betsById := fun _ => none } }

/-- Environment whose store holds the underfunded Opened channel
`chPoor` under channel id 1. -/
def envPoor : Env :=
  { envEmpty with
    store :=
      { channels := fun c => if c = 1 then some chPoor else none
        betsByChannelRound := fun _ _ => none
        betsById := fun _ => none } }

/-- Environment with the Closed channel `chClosed` under id 1 whose
current round (round 1) has the unfinished bet `betInit1`. -/
def envStaleClosed : Env :=
  { envEmpty with
    store :=
      { channels := fun c => if c = 1 then some chClosed else none
        betsByChannelRound := fun c r => if c = 1 ∧ r = some 1 then some betInit1 else none
        betsById := fun _ => none } }

/-- Environment with the Closed channel `chClosed` under id 1 and the
finished bet `betFinished` under bet id 5. -/
def envFinishedBet : Env :=
  { envEmpty with
    store :=
      { channels := fun c => if c = 1 then some chClosed else none
        betsByChannelRound := fun _ _ => none
        betsById := fun b => if b = 5 then some betFinished else none } }

/-- Environment with the Closed channel `chClosed` under id 1 and the
started (disputed) bet `betStarted` under bet id 5. -/
def envActiveBet : Env :=
  { envEmpty with
    store :=
      { channels := fun c => if c = 1 then some chClosed else none
        betsByChannelRound := fun _ _ => none
        betsById := fun b => if b = 5 then some betStarted else none } }

/-- Environment whose store holds the Closed channel `chClosed` under
channel id 9, the id `envEmpty.chainChannelId` assigns to every partner. -/
def envClosedCh : Env :=
  { envEmpty with
    store :=
      { channels := fun c => if c = 9 then some chClosed else none
        betsByChannelRound := fun _ _ => none
        betsById := fun _ => none } }

/-- Claim C6: `getChannel` is specified to return the full stored channel
record, but for every environment (however rich its store) and every
partner address the code returns the empty object literal: the stub the
specification explicitly disavows. -/
theorem getChannel_always_empty_object (env : Env) (partnerAddress : Nat) :
    (SCClient.getChannel env partnerAddress).1 = ApiOutcome.retEmptyObject :=
  rfl

/-- Claim C7: `unlockChannel` submits the unlock call but, lacking a
`return` statement, resolves to `undefined` for every environment and
input — never to the transaction hash its own doc comment and the claim
promise. -/
theorem unlockChannel_resolves_undefined (env : Env) (partnerAddress lockIdentifier : Nat) :
    (SCClient.unlockChannel env partnerAddress lockIdentifier).1 = ApiOutcome.retUndefined ∧
      (SCClient.unlockChannel env partnerAddress lockIdentifier).1 ≠
        ApiOutcome.retTx (env.unlockTx env.fromAddr partnerAddress lockIdentifier) :=
  ⟨rfl, by simp [SCClient.unlockChannel]⟩

/-- Claim C10: for every environment (in particular for every store
content) and every input, `unlockChannel`'s trace is exactly the single
unconditional on-chain unlock call: no store read and no guard precedes
it. -/
theorem unlockChannel_unconditional (env : Env) (partnerAddress lockIdentifier : Nat) :
    (SCClient.unlockChannel env partnerAddress lockIdentifier).2 =
      [Action.chainUnlock env.fromAddr partnerAddress lockIdentifier] ∧
      ((SCClient.unlockChannel env partnerAddress lockIdentifier).2.all
        (fun a => !a.isStoreRead)) = true :=
  ⟨rfl, rfl⟩

/-- Claim C9: registering callbacks with `on` is last-writer-wins: after
any sequence of registrations folded over any initial event list, the
callback stored for an event name is the one of the latest registration
for that name (and the initial entry when there is none). -/
theorem onEvent_last_writer_wins (f : String → Option Nat)
    (regs : List (String × Nat)) (e : String) :
    applyRegs f regs e =
      match lastRegistered regs e with
      | some c => some c
      | none => f e := by
  induction regs generalizing f with
  | nil => rfl
  | cons r rs ih =>
    show applyRegs (SCClient.onEvent f r.1 r.2) rs e = _
    rw [ih]
    rcases h : lastRegistered rs e with _ | c
    · simp only [lastRegistered, h, SCClient.onEvent]
      by_cases he : r.1 = e
      · simp [he]
      · simp [he, Ne.symm he]
    · simp [lastRegistered, h]

/-- Claim C4 counterexample: with no stored channel, `closeChannel`
dereferences `channel.status` on a missing record and so surfaces an
untyped `TypeError` rejection — not the tagged `UnknownChannel` variant
the claim promises. -/
theorem closeChannel_unknown_channel_is_untyped :
    (SCClient.closeChannel envEmpty 3).1 = ApiOutcome.untypedThrow JsError.typeError ∧
      (SCClient.closeChannel envEmpty 3).1 ≠ ApiOutcome.taggedError ErrKind.unknownChannel := by
  decide

/-- Claim C4 (amended): for a channel with no stored record, `startBet`
resolves to `undefined`, `settleChannel` and `initiatorSettle` resolve to
`false`, and `closeChannel` rejects with an untyped `TypeError`; none of
the four operations surfaces a tagged `UnknownChannel` variant. -/
theorem unknown_channel_surfacing (env : Env)
    (channelIdentifier betId partnerAddress betMask modulo : Nat)
    (betValue : Int) (seed : String)
    (h1 : env.store.channels channelIdentifier = none)
    (h2 : env.store.channels (env.chainChannelId partnerAddress) = none) :
    (SCClient.startBet env channelIdentifier partnerAddress betMask modulo betValue seed).1 =
      ApiOutcome.retUndefined ∧
    (SCClient.initiatorSettle env channelIdentifier betId).1 = ApiOutcome.retFalse ∧
    (SCClient.closeChannel env partnerAddress).1 =
      ApiOutcome.untypedThrow JsError.typeError ∧
    (SCClient.settleChannel env partnerAddress).1 = ApiOutcome.retFalse := by
  refine ⟨?_, ?_, ?_, ?_⟩ <;>
    simp [SCClient.startBet, SCClient.initiatorSettle, SCClient.closeChannel,
      SCClient.settleChannel, h1, h2]

/-- Claim C4 witness: the amended behaviour evaluated in the concrete
empty-store environment. -/
theorem unknown_channel_surfacing_witness :
    (SCClient.startBet envEmpty 1 11 1 6 100 "").1 = ApiOutcome.retUndefined ∧
    (SCClient.initiatorSettle envEmpty 1 5).1 = ApiOutcome.retFalse ∧
    (SCClient.closeChannel envEmpty 11).1 = ApiOutcome.untypedThrow JsError.typeError ∧
    (SCClient.settleChannel envEmpty 11).1 = ApiOutcome.retFalse :=
  unknown_channel_surfacing envEmpty 1 5 11 1 6 100 "" rfl rfl

/-- Claim C5 counterexample: the bet `betFinished` has status at least
Start (it is Finish) and its channel is Closed, yet `initiatorSettle`
resolves to `false` instead of submitting the proof and returning a
transaction hash: the code additionally excludes status Finish. -/
theorem initiatorSettle_finished_bet_refused :
    BET_START ≤ betFinished.status ∧
      chClosed.status = CHANNEL_CLOSED ∧
      (SCClient.initiatorSettle envFinishedBet 1 5).1 = ApiOutcome.retFalse := by
  decide

/-- Claim C5 (amended): for every stored bet with status at least Start
and other than Finish, in a channel whose status is Closed or
UpdateBalanceProof, `initiatorSettle` assembles the initiator-settle
proof and submits it on-chain, resolving to the transaction hash. -/
theorem initiatorSettle_submits_active_bet (env : Env) (channelIdentifier betId : Nat)
    (channel : Channel) (bet : Bet)
    (hch : env.store.channels channelIdentifier = some channel)
    (hst : channel.status = CHANNEL_CLOSED ∨ channel.status = CHANNEL_UPDATEBALANCEPROOF)
    (hbet : env.store.betsById betId = some bet)
    (hge : BET_START ≤ bet.status)
    (hfin : bet.status ≠ BET_FINISH) :
    (SCClient.initiatorSettle env channelIdentifier betId).1 =
      ApiOutcome.retTx (env.initiatorSettleTx (env.getInitiatorSettleData channel bet)) ∧
    (SCClient.initiatorSettle env channelIdentifier betId).2 =
      [Action.readChannel channelIdentifier, Action.readBetById betId,
        Action.chainInitiatorSettle (env.getInitiatorSettleData channel bet)] := by
  have hnlt : ¬bet.status < BET_START := not_lt.mpr hge
  have hguard : ¬(channel.status ≠ CHANNEL_CLOSED ∧
      channel.status ≠ CHANNEL_UPDATEBALANCEPROOF) := by
    rcases hst with h | h <;> simp [h]
  constructor <;>
    simp [SCClient.initiatorSettle, hch, hbet, hguard, hnlt, hfin]

/-- Claim C5 witness: the amended behaviour evaluated on the concrete
disputed bet `betStarted` in the Closed channel `chClosed`. -/
theorem initiatorSettle_submits_active_bet_witness :
    (SCClient.initiatorSettle envActiveBet 1 5).1 =
      ApiOutcome.retTx
        (envActiveBet.initiatorSettleTx
          (envActiveBet.getInitiatorSettleData chClosed betStarted)) ∧
    (SCClient.initiatorSettle envActiveBet 1 5).2 =
      [Action.readChannel 1, Action.readBetById 5,
        Action.chainInitiatorSettle
          (envActiveBet.getInitiatorSettleData chClosed betStarted)] :=
  initiatorSettle_submits_active_bet envActiveBet 1 5 chClosed betStarted
    (by decide) (Or.inl rfl) (by decide) (by decide) (by decide)

/-- Claim C8 counterexample: with no stored channel, `settleChannel`
resolves to `false` but has already called the blockchain proxy
(`getChannelIdentifier`), so it does not reject "without making any
on-chain call" as the claim states. -/
theorem settleChannel_queries_chain_when_missing :
    (SCClient.settleChannel envEmpty 3).1 = ApiOutcome.retFalse ∧
      (SCClient.settleChannel envEmpty 3).2.any Action.isChainCall = true := by
  decide

/-- Claim C8 (amended): `settleChannel` assembles the settle proof and
submits the settle transaction exactly when the channel exists with
status Closed or UpdateBalanceProof; in every other case it resolves to
`false` without submitting any on-chain transaction, though it always
performs the read-only `getChannelIdentifier` chain query first. -/
theorem settleChannel_submits_only_when_closed (env : Env) (partnerAddress : Nat) :
    (∀ channel, env.store.channels (env.chainChannelId partnerAddress) = some channel →
      (channel.status = CHANNEL_CLOSED ∨ channel.status = CHANNEL_UPDATEBALANCEPROOF) →
      SCClient.settleChannel env partnerAddress =
        (ApiOutcome.retTx (env.settleTx (env.getSettleData channel
            channel.localCloseBalanceHash channel.remoteCloseBalanceHash)),
          [Action.chainGetChannelIdentifier partnerAddress,
            Action.readChannel (env.chainChannelId partnerAddress),
            Action.chainSettle (env.getSettleData channel
              channel.localCloseBalanceHash channel.remoteCloseBalanceHash)])) ∧
    (∀ channel, env.store.channels (env.chainChannelId partnerAddress) = some channel →
      channel.status ≠ CHANNEL_CLOSED → channel.status ≠ CHANNEL_UPDATEBALANCEPROOF →
      (SCClient.settleChannel env partnerAddress).1 = ApiOutcome.retFalse ∧
        ((SCClient.settleChannel env partnerAddress).2.all
          (fun a => !a.isChainSubmit)) = true) ∧
    (env.store.channels (env.chainChannelId partnerAddress) = none →
      (SCClient.settleChannel env partnerAddress).1 = ApiOutcome.retFalse ∧
        ((SCClient.settleChannel env partnerAddress).2.all
          (fun a => !a.isChainSubmit)) = true) := by
  refine ⟨?_, ?_, ?_⟩
  · intro channel hch hst
    have hguard : ¬(channel.status ≠ CHANNEL_CLOSED ∧
        channel.status ≠ CHANNEL_UPDATEBALANCEPROOF) := by
      rcases hst with h | h <;> simp [h]
    simp [SCClient.settleChannel, hch, hguard]
  · intro channel hch h1 h2
    constructor <;> simp [SCClient.settleChannel, hch, h1, h2, Action.isChainSubmit]
  · intro hch
    constructor <;> simp [SCClient.settleChannel, hch, Action.isChainSubmit]

/-- Claim C8 witness: the submit branch of the amended behaviour
evaluated on the concrete Closed channel `chClosed`. -/
theorem settleChannel_submits_only_when_closed_witness :
    SCClient.settleChannel envClosedCh 3 =
      (ApiOutcome.retTx (envClosedCh.settleTx (envClosedCh.getSettleData chClosed
          chClosed.localCloseBalanceHash chClosed.remoteCloseBalanceHash)),
        [Action.chainGetChannelIdentifier 3,
          Action.readChannel (envClosedCh.chainChannelId 3),
          Action.chainSettle (envClosedCh.getSettleData chClosed
            chClosed.localCloseBalanceHash chClosed.remoteCloseBalanceHash)]) :=
  (settleChannel_submits_only_when_closed envClosedCh 3).1 chClosed (by decide) (Or.inl rfl)

/-- Success branch of `startBet`: with an Opened stored channel, no
unfinished current-round bet and sufficient balances, the call resolves
to `true` and performs exactly the five actions read-channel, read-bet,
persist-bet, persist-round, emit, in program order. -/
theorem startBet_success_shape (env : Env)
    (channelIdentifier partnerAddress betMask modulo : Nat)
    (betValue : Int) (seed : String) (channel : Channel)
    (hch : env.store.channels channelIdentifier = some channel)
    (hop : channel.status = CHANNEL_OPENED)
    (hub : unfinishedBet (env.store.betsByChannelRound channelIdentifier
      channel.currentRound) = false)
    (hbal : ¬(channel.remoteBalance < getPossibleWinAmount betMask modulo betValue ∨
      channel.localBalance < betValue)) :
    SCClient.startBet env channelIdentifier partnerAddress betMask modulo betValue seed =
      (ApiOutcome.retTrue,
        [Action.readChannel channelIdentifier,
          Action.readBetByChannel channelIdentifier channel.currentRound,
          Action.putBet (startBetRecord
            (generateBetRequest env channelIdentifier (channel.currentRound.getD 0 + 1)
              betMask modulo env.fromAddr partnerAddress
              (env.keccak (env.randomFromSeed seed)) betValue)
            (env.randomFromSeed seed) (getPossibleWinAmount betMask modulo betValue)),
          Action.updateChannelRound channelIdentifier (channel.currentRound.getD 0 + 1),
          Action.emitBetRequest (generateBetRequest env channelIdentifier
            (channel.currentRound.getD 0 + 1) betMask modulo env.fromAddr partnerAddress
            (env.keccak (env.randomFromSeed seed)) betValue)]) := by
  cases hcr : channel.currentRound with
  | none =>
    rw [hcr] at hub
    simp [SCClient.startBet, hch, hop, hub, hbal, hcr]
  | some r =>
    rw [hcr] at hub
    simp [SCClient.startBet, hch, hop, hub, hbal, hcr]

/-- Claim C1 counterexample: the channel `chClosed` has an unfinished
current-round bet (`betInit1`, status Init), but because its status is
Closed rather than Opened, `startBet` resolves to `undefined`
(a bare `return`), not to `false` as the claim states for every such
channel. -/
theorem startBet_stale_bet_closed_channel_undefined :
    unfinishedBet (envStaleClosed.store.betsByChannelRound 1 chClosed.currentRound) = true ∧
      (SCClient.startBet envStaleClosed 1 11 1 6 100 "").1 = ApiOutcome.retUndefined ∧
      (SCClient.startBet envStaleClosed 1 11 1 6 100 "").1 ≠ ApiOutcome.retFalse := by
  decide

/-- Claim C1 (amended): for a stored channel with status Opened, if the
current-round bet is unfinished or either balance is insufficient
(remote below the computed win amount or local below the stake),
`startBet` resolves to `false` and its trace contains no store write and
no emission; for a stored channel whose status is not Opened it resolves
to `undefined`, likewise writing and emitting nothing. -/
theorem startBet_reject_behaviour (env : Env)
    (channelIdentifier partnerAddress betMask modulo : Nat)
    (betValue : Int) (seed : String) (channel : Channel)
    (hch : env.store.channels channelIdentifier = some channel) :
    (channel.status = CHANNEL_OPENED →
      (unfinishedBet (env.store.betsByChannelRound channelIdentifier
          channel.currentRound) = true ∨
        channel.remoteBalance - getPossibleWinAmount betMask modulo betValue < 0 ∨
        channel.localBalance - betValue < 0) →
      (SCClient.startBet env channelIdentifier partnerAddress betMask modulo
          betValue seed).1 = ApiOutcome.retFalse ∧
        ((SCClient.startBet env channelIdentifier partnerAddress betMask modulo
          betValue seed).2.all (fun a => !a.isPersist && !a.isEmit)) = true) ∧
    (channel.status ≠ CHANNEL_OPENED →
      (SCClient.startBet env channelIdentifier partnerAddress betMask modulo
          betValue seed).1 = ApiOutcome.retUndefined ∧
        ((SCClient.startBet env channelIdentifier partnerAddress betMask modulo
          betValue seed).2.all (fun a => !a.isPersist && !a.isEmit)) = true) := by
  constructor
  · intro hop hcond
    by_cases hub : unfinishedBet (env.store.betsByChannelRound channelIdentifier
        channel.currentRound) = true
    · constructor <;>
        simp [SCClient.startBet, hch, hop, hub, Action.isPersist, Action.isEmit]
    · simp only [Bool.not_eq_true] at hub
      rcases hcond with h | hbal
      · rw [hub] at h
        exact absurd h (by decide)
      · simp only [sub_neg] at hbal
        constructor <;>
          simp [SCClient.startBet, hch, hop, hub, hbal, Action.isPersist, Action.isEmit]
  · intro hop
    constructor <;>
      simp [SCClient.startBet, hch, hop, Action.isPersist, Action.isEmit]

/-- Claim C1 witness: the rejection behaviour evaluated on the concrete
underfunded Opened channel `chPoor` (local balance 50, stake 100). -/
theorem startBet_reject_behaviour_witness :
    (SCClient.startBet envPoor 1 11 1 6 100 "").1 = ApiOutcome.retFalse ∧
      ((SCClient.startBet envPoor 1 11 1 6 100 "").2.all
        (fun a => !a.isPersist && !a.isEmit)) = true :=
  (startBet_reject_behaviour envPoor 1 11 1 6 100 "" chPoor (by decide)).1 rfl
    (Or.inr (Or.inr (by decide)))

/-- Claim C2: every successful `startBet` call performs exactly one
round update, setting `current_round` to one more than the channel's
previous round (a JavaScript `null` round standing for round 0). -/
theorem startBet_increments_round (env : Env)
    (channelIdentifier partnerAddress betMask modulo : Nat)
    (betValue : Int) (seed : String) (channel : Channel)
    (hch : env.store.channels channelIdentifier = some channel)
    (hres : (SCClient.startBet env channelIdentifier partnerAddress betMask modulo
      betValue seed).1 = ApiOutcome.retTrue) :
    ((SCClient.startBet env channelIdentifier partnerAddress betMask modulo
        betValue seed).2.filter Action.isRoundUpdate) =
      [Action.updateChannelRound channelIdentifier (channel.currentRound.getD 0 + 1)] := by
  by_cases hop : channel.status = CHANNEL_OPENED
  · by_cases hub : unfinishedBet (env.store.betsByChannelRound channelIdentifier
        channel.currentRound) = true
    · simp [SCClient.startBet, hch, hop, hub] at hres
    · simp only [Bool.not_eq_true] at hub
      by_cases hbal : channel.remoteBalance < getPossibleWinAmount betMask modulo betValue ∨
          channel.localBalance < betValue
      · simp [SCClient.startBet, hch, hop, hub, hbal] at hres
      · rw [startBet_success_shape env channelIdentifier partnerAddress betMask modulo
          betValue seed channel hch hop hub hbal]
        simp [Action.isRoundUpdate]
  · simp [SCClient.startBet, hch, hop] at hres

/-- Claim C2 witness: the round increment evaluated on the concrete
Opened channel `chOpened` at round 3: the persisted round is 4. -/
theorem startBet_increments_round_witness :
    ((SCClient.startBet envOpen 1 11 1 6 100 "").2.filter Action.isRoundUpdate) =
      [Action.updateChannelRound 1 (chOpened.currentRound.getD 0 + 1)] :=
  startBet_increments_round envOpen 1 11 1 6 100 "" chOpened (by decide) (by decide)

/-- Claim C3: every successful `startBet` call produces exactly the
trace read-channel, read-bet, persist-bet, persist-round, emit: both
store writes happen strictly before the `BetRequest` emission, which is
the last action. -/
theorem startBet_persists_before_emit (env : Env)
    (channelIdentifier partnerAddress betMask modulo : Nat)
    (betValue : Int) (seed : String) (channel : Channel)
    (hch : env.store.channels channelIdentifier = some channel)
    (hres : (SCClient.startBet env channelIdentifier partnerAddress betMask modulo
      betValue seed).1 = ApiOutcome.retTrue) :
    ∃ bet msg,
      (SCClient.startBet env channelIdentifier partnerAddress betMask modulo
        betValue seed).2 =
        [Action.readChannel channelIdentifier,
          Action.readBetByChannel channelIdentifier channel.currentRound,
          Action.putBet bet,
          Action.updateChannelRound channelIdentifier (channel.currentRound.getD 0 + 1),
          Action.emitBetRequest msg] := by
  by_cases hop : channel.status = CHANNEL_OPENED
  · by_cases hub : unfinishedBet (env.store.betsByChannelRound channelIdentifier
        channel.currentRound) = true
    · simp [SCClient.startBet, hch, hop, hub] at hres
    · simp only [Bool.not_eq_true] at hub
      by_cases hbal : channel.remoteBalance < getPossibleWinAmount betMask modulo betValue ∨
          channel.localBalance < betValue
      · simp [SCClient.startBet, hch, hop, hub, hbal] at hres
      · exact ⟨_, _, congrArg Prod.snd (startBet_success_shape env channelIdentifier
          partnerAddress betMask modulo betValue seed channel hch hop hub hbal)⟩
  · simp [SCClient.startBet, hch, hop] at hres

/-- Claim C3 witness: the full success trace evaluated on the concrete
Opened channel `chOpened`. -/
theorem startBet_persists_before_emit_witness :
    ∃ bet msg,
      (SCClient.startBet envOpen 1 11 1 6 100 "").2 =
        [Action.readChannel 1,
          Action.readBetByChannel 1 chOpened.currentRound,
          Action.putBet bet,
          Action.updateChannelRound 1 (chOpened.currentRound.getD 0 + 1),
          Action.emitBetRequest msg] :=
  startBet_persists_before_emit envOpen 1 11 1 6 100 "" chOpened (by decide) (by decide)

end SCNode
